import Mathlib

/-!
Shallow embedding of the client-side storage layer of this repository
(`src/storage/wrapper_db.py`, class `DbWrapper`), together with the parts of
its environment that the wrapper's behaviour depends on.

Modelling conventions:
* Python byte strings are `List Nat` (one entry per byte).
* Keys are Lean `String`s; every key in the source is produced by an f-string
  (`f"{uri}"`, `f"c{i}"`) over ASCII data, so `String` is faithful.
* The external C library (`libmulti_dotori.so`) is not part of this
  repository.  Its observable behaviour at the wrapper boundary is modelled
  by an association-list store: `couchstore_save_document_to_nodes` upserts a
  document under its id, `couchstore_open_document_from_nodes` looks a key up
  and fills the out-pointer only when the key is present (per the external
  capability contract: get fails distinctly for "not found").  The status
  codes these calls return are represented where the claim needs them
  (`putOk` below); the wrapper itself never inspects them.
* ctypes semantics that matter: reading a `c_char_p` field yields the bytes
  up to the first NUL byte (`cCharP`), and dereferencing a NULL pointer via
  `.contents` raises `ValueError` (modelled as `ReadError.nullPointerAccess`).
-/

/-- ctypes `c_char_p` read semantics: converting a C string pointer to Python
bytes stops at the first NUL byte.  `wrapper_db.py` line 123 reads
`rq_doc.contents.data.buf` through this conversion. -/
def cCharP (bs : List Nat) : List Nat := bs.takeWhile (fun b => b ≠ 0)

/-- A document as handed to the C library: an id (`SizedBuf` holding the
encoded key) and a data buffer.  Sizes are always the lengths of the buffers
in the source, so they are not duplicated here. -/
structure Doc where
  id : String
  data : List Nat
deriving DecidableEq

/-- The portion of the multi-node store observable through the wrapper:
an upsert map from document id to payload bytes.  Routing through the
consistent-hashing ring happens inside the C library and is keyed only by the
id, so it does not affect which payload a key maps to. -/
def storePut (store : List (String × List Nat)) (key : String) (val : List Nat) :
    List (String × List Nat) :=
  (key, val) :: store.filter (fun kv => kv.1 ≠ key)

/-- Lookup in the modelled multi-node store. -/
def storeGet (store : List (String × List Nat)) (key : String) : Option (List Nat) :=
  (store.find? (fun kv => kv.1 == key)).map Prod.snd

/-- Embedding of the `DbHandle` ctypes structure built by `db_init`
(lines 64-75): `node_num` is the field of the same name, `ringNodes` records
the node indices passed to `add_node` on the consistent-hashing instance
created with 32 virtual replicas, `store` is the observable content of the
opened node stores, and `isOpen` records whether
`couchstore_close_multiple_dbs` has been called on the handle. -/
structure DbHandle where
  node_num : Nat
  ringNodes : List Nat
  store : List (String × List Nat)
  isOpen : Bool
deriving DecidableEq

/-- `DbWrapper.db_init(num_nodes, ...)` (lines 59-76): sets
`handle.node_num = num_nodes`, allocates the node array, creates the
consistent-hashing instance, adds node `i` for `i in range(num_nodes)`, and
opens the node stores.  No argument validation of any kind is performed and
no exception can be raised on the wrapper side; statuses of the C calls are
discarded. -/
def db_init (num_nodes : Nat) : DbHandle :=
  { node_num := num_nodes
    ringNodes := List.range num_nodes
    store := []
    isOpen := true }

/-- The wrapper object: `self.handle` and `self.dataset_key` (lines 45-46).
`handle` is `None` only transiently inside `__init__` before `db_init(4)`
runs, so it is modelled as always present. -/
structure DbWrapper where
  handle : DbHandle
  dataset_key : List String
deriving DecidableEq

/-- The process-wide class attribute `DbWrapper.__instance` (line 42). -/
structure Registry where
  inst : Option DbWrapper
deriving DecidableEq

/-- The only failure the singleton machinery can produce:
`raise Exception("This class is a singleton!")` on line 49, the code's
re-initialization error (`AlreadyInitialized` in the spec's taxonomy). -/
inductive DbError where
  | alreadyInitialized
deriving DecidableEq

/-- The wrapper state constructed by `__init__` when no instance exists yet:
`dataset_key = []` and `handle = db_init(4)` (lines 45-52). -/
def initialWrapper : DbWrapper :=
  { handle := db_init 4, dataset_key := [] }

/-- `DbWrapper.__init__` (lines 44-52): if the class-level `__instance` is
already set, raise; otherwise record the new object as the instance and run
`db_init(4)` on it. -/
def DbWrapper.construct (reg : Registry) : Except DbError (DbWrapper × Registry) :=
  match reg.inst with
  | some _ => .error .alreadyInitialized
  | none => .ok (initialWrapper, { inst := some initialWrapper })

/-- `DbWrapper.get_instance` (lines 54-57): construct on first use, then
always return the stored instance. -/
def get_instance (reg : Registry) : Except DbError (DbWrapper × Registry) :=
  match reg.inst with
  | some w => .ok (w, reg)
  | none => DbWrapper.construct reg

/-- `couchstore_save_document_to_nodes` as observed at the wrapper boundary:
on engine success the document is upserted under its id, on engine failure
nothing is stored.  The status code it returns is the `putOk` flag; the
wrapper discards it in every call site. -/
def save_document_to_nodes (h : DbHandle) (d : Doc) (putOk : Bool) : DbHandle :=
  if putOk then { h with store := storePut h.store d.id d.data } else h

/-- `couchstore_commit_nodes`: a durability barrier in the C library with no
effect observable through the wrapper's own state. -/
def commit_nodes (h : DbHandle) : DbHandle := h

/-- `DbWrapper.db_close` (lines 78-79): calls
`couchstore_close_multiple_dbs` on the handle.  The wrapper records nothing
on the Python side; only the C handles are closed. -/
def db_close (w : DbWrapper) : DbWrapper :=
  { w with handle := { w.handle with isOpen := false } }

/-- `DbWrapper.db_write` (lines 98-112): build a single document whose id is
`f"{uri}"` and whose data buffer is the payload with its exact length, call
`couchstore_save_document_to_nodes` (status discarded), append the key to
`self.dataset_key`, then call `couchstore_commit_nodes` (status discarded).
Nothing is conditional on the put's outcome. -/
def db_write (w : DbWrapper) (uri : String) (data : List Nat) (putOk : Bool) :
    DbWrapper :=
  let key := uri
  let doc : Doc := { id := key, data := data }
  let handle1 := save_document_to_nodes w.handle doc putOk
  let keys := w.dataset_key ++ [key]
  let handle2 := commit_nodes handle1
  { handle := handle2, dataset_key := keys }

/-- The documents emitted by `DbWrapper.db_checkpoint` (lines 81-96):
`bs = 8192`, `size = len(data)//bs + 1`, and the loop `for i in range(size-1)`
saves a document with id `f"c{i}"` (the uri-qualified key `f"{uri}-{i}"` is
commented out in the source, so `uri` is unused) and data
`data[i*bs:(i+1)*bs]`. -/
def db_checkpoint_docs (uri : String) (data : List Nat) : List Doc :=
  let bs := 8192
  let size := data.length / bs + 1
  (List.range (size - 1)).map fun i =>
    { id := "c" ++ toString i
      data := (data.drop (i * bs)).take bs }

/-- `DbWrapper.db_checkpoint` at the state level: each emitted document is
saved to the nodes in loop order; `self.dataset_key` is never touched and no
commit is issued. -/
def db_checkpoint (w : DbWrapper) (uri : String) (data : List Nat) : DbWrapper :=
  let docs := db_checkpoint_docs uri data
  { w with handle := docs.foldl (fun h d => save_document_to_nodes h d true) w.handle }

/-- The operations `db_read` performs on the node-allocated `Doc` structure,
in source order: line 123 reads `rq_doc.contents.data.buf` (copy-out into the
caller's dataset list), line 126 assigns `rq_doc.contents.id.buf = None`,
line 127 calls `couchstore_free_document(rq_doc)`, and line 129 (the return
statement) reads `rq_doc.contents.data.size`. -/
inductive DocEvent where
  | copyOutData
  | assignIdBuf
  | freeDoc
  | readDataSize
deriving DecidableEq

/-- The doc-structure event trace of the successful branch of `db_read`. -/
def readDocEvents : List DocEvent :=
  [.copyOutData, .assignIdBuf, .freeDoc, .readDataSize]

/-- The only failure `db_read` can produce on the wrapper side: the ctypes
`ValueError` raised by dereferencing `.contents` of a NULL `POINTER(Doc)`.
`rq_doc` is initialised NULL (line 115) and the status of
`couchstore_open_document_from_nodes` is discarded, so when the key is absent
the first dereference on line 123 raises this. -/
inductive ReadError where
  | nullPointerAccess
deriving DecidableEq

/-- `couchstore_open_document_from_nodes` as observed at the wrapper
boundary: fills the out-pointer with the stored document when the key is
present, leaves it NULL otherwise (the external contract distinguishes
"not found" from success through the status code, which the wrapper
ignores). -/
def open_document_from_nodes (h : DbHandle) (key : String) : Option (List Nat) :=
  storeGet h.store key

/-- Result of a successful `db_read` call: `ret` is the value of the `return`
statement (`rq_doc.contents.data.size`, read after the document was freed; the
model reports the size the buffer held, the real read is undefined
behaviour), `dataset` is the caller's list after the append on line 123, and
`docEvents` is the trace of operations on the node-allocated document. -/
structure ReadResult where
  ret : Nat
  dataset : List (List Nat)
  docEvents : List DocEvent
deriving DecidableEq

/-- `DbWrapper.db_read` (lines 114-129): look the key up in the nodes; if the
out-pointer stays NULL the dereference on line 123 raises; otherwise append
`rq_doc.contents.data.buf` — a `c_char_p` read, hence truncated at the first
NUL byte — to the caller's `dataset` list, null out the id buffer, free the
document, and return the (already freed) document's `data.size`. -/
def db_read (w : DbWrapper) (uri : String) (dataset : List (List Nat)) :
    Except ReadError ReadResult :=
  let key := uri
  match open_document_from_nodes w.handle key with
  | none => .error .nullPointerAccess
  | some stored =>
      .ok { ret := stored.length
            dataset := dataset ++ [cCharP stored]
            docEvents := readDocEvents }

/-- `DBReader.read` (`src/reader/db_reader.py` lines 52-54): the reader
fetches exactly the keys accumulated in the wrapper's `dataset_key`. -/
def dbReaderKeys (w : DbWrapper) : List String := w.dataset_key

/-! ## Helper lemmas -/

/-- Concatenating the first `k` fixed-size slices of `data` yields exactly the
first `k * 8192` bytes of `data`. -/
lemma chunks_flatten (data : List Nat) : ∀ k : Nat,
    ((List.range k).map fun i => (data.drop (i * 8192)).take 8192).flatten
      = data.take (k * 8192)
  | 0 => rfl
  | k + 1 => by
    rw [List.range_succ, List.map_append, List.flatten_append, chunks_flatten data k]
    simp only [List.map_cons, List.map_nil, List.flatten_cons, List.flatten_nil,
      List.append_nil]
    rw [Nat.succ_mul, List.take_add]

/-- The ids of the documents emitted by `db_checkpoint` are exactly
`"c0", "c1", ...` up to `len(data) // 8192` (exclusive), independently of the
`uri` argument. -/
lemma checkpoint_docs_ids (uri : String) (data : List Nat) :
    (db_checkpoint_docs uri data).map Doc.id
      = (List.range (data.length / 8192)).map (fun i => "c" ++ toString i) := by
  unfold db_checkpoint_docs
  simp only [Nat.add_sub_cancel, List.map_map]
  rfl

/-! ## Claims -/

/-- C1: the claim says `db_checkpoint` emits `ceil(len(data)/8192)` chunks
covering indices `[0, chunk_count)` whose concatenation reconstructs `data`.
In the code `size = len(data)//8192 + 1` but the loop runs
`for i in range(size-1)`, emitting only `len(data)//8192` chunks: the bytes
persisted are exactly the first `len(data)//8192 * 8192` bytes of `data`, so
every trailing partial chunk is dropped.  At the failing input `[7]`
(one byte, below the chunk size) the code emits no chunk at all, although
`ceil(1/8192) = 1` chunk is required. -/
theorem db_checkpoint_drops_trailing_partial_chunk :
    (∀ data : List Nat,
      ((db_checkpoint_docs "u" data).map Doc.data).flatten
        = data.take (data.length / 8192 * 8192))
    ∧ db_checkpoint_docs "u" [7] = []
    ∧ (1 + 8192 - 1) / 8192 = 1 := by
  refine ⟨fun data => ?_, rfl, by decide⟩
  unfold db_checkpoint_docs
  simp only [Nat.add_sub_cancel, List.map_map]
  exact chunks_flatten data (data.length / 8192)

/-- C2: the claim says a write/read round trip is byte-for-byte exact for
arbitrary payloads including NUL bytes.  `db_read` delivers the payload by
appending `rq_doc.contents.data.buf` — a ctypes `c_char_p` read, which stops
at the first NUL byte — so writing `[97, 0, 98]` under key `"k"` and reading
it back yields only `[97]`, not the original payload. -/
theorem db_write_db_read_truncates_at_nul :
    db_read (db_write initialWrapper "k" [97, 0, 98] true) "k" []
      = .ok { ret := 3, dataset := [[97]], docEvents := readDocEvents }
    ∧ ([97] : List Nat) ≠ [97, 0, 98] := by
  exact ⟨rfl, by decide⟩

/-- C3: the claim says reading a never-written key returns a typed
`KeyNotFound` error.  The code ignores the status returned by
`couchstore_open_document_from_nodes` and unconditionally dereferences the
out-pointer, which is still NULL when the key is absent, so the call crashes
with a ctypes NULL-pointer `ValueError` instead of returning a typed
error. -/
theorem db_read_missing_key_crashes :
    db_read initialWrapper "missing" [] = .error .nullPointerAccess := rfl

/-- C4: exactly one `DbWrapper` instance exists per process: the first
`get_instance` call constructs the instance with the fixed default topology
of 4 nodes, every later call returns that same instance unchanged, and
explicitly constructing a second instance fails with the singleton
re-initialization error. -/
theorem singleton_lifecycle :
    (get_instance { inst := none }
        = .ok (initialWrapper, { inst := some initialWrapper })
      ∧ initialWrapper.handle.node_num = 4)
    ∧ (∀ w : DbWrapper, get_instance { inst := some w } = .ok (w, { inst := some w }))
    ∧ (∀ w : DbWrapper,
        DbWrapper.construct { inst := some w } = .error .alreadyInitialized) :=
  ⟨⟨rfl, rfl⟩, fun _ => rfl, fun _ => rfl⟩

/-- C5 counterexample: the claim says a failed put adds no entry to
`written_keys`.  Starting from the fresh wrapper, a `db_write` whose
underlying put fails (nothing is stored in any node) still appends the key to
`dataset_key`, because the source discards the put's status and appends
unconditionally. -/
theorem db_write_failed_put_still_appends_key :
    (db_write initialWrapper "k" [1] false).dataset_key = ["k"]
    ∧ (db_write initialWrapper "k" [1] false).handle.store = [] :=
  ⟨rfl, rfl⟩

/-- C5 amended: on every `db_write` call, `dataset_key` grows by exactly the
written key, appended after the put and before the commit, regardless of
whether the underlying put succeeded. -/
theorem db_write_appends_key_unconditionally :
    ∀ (w : DbWrapper) (uri : String) (data : List Nat) (putOk : Bool),
      (db_write w uri data putOk).dataset_key = w.dataset_key ++ [uri] :=
  fun _ _ _ _ => rfl

/-- C6 counterexample: the claim says building with `node_count == 0` fails
with `InvalidTopology`.  `db_init 0` raises nothing (it has no failure path)
and produces a handle whose ring received no `add_node` call at all — a
client whose ring has no positions. -/
theorem db_init_zero_nodes_empty_ring :
    (db_init 0).ringNodes = [] ∧ (db_init 0).node_num = 0 :=
  ⟨rfl, rfl⟩

/-- C6 amended: `db_init` performs no topology validation: for every
`num_nodes`, including 0, it constructs the handle and adds exactly the node
indices `0, ..., num_nodes - 1` to the ring, so `num_nodes = 0` yields an
empty ring instead of an `InvalidTopology` failure. -/
theorem db_init_no_topology_validation :
    ∀ num_nodes : Nat,
      (db_init num_nodes).ringNodes = List.range num_nodes
      ∧ (db_init num_nodes).node_num = num_nodes :=
  fun _ => ⟨rfl, rfl⟩

/-- C7: the claim says the node-allocated document is released exactly once
after the payload is copied out, and no field of it is read after release.
On any successful read the document is indeed freed exactly once, but the
`return` statement reads the document's `data.size` field after
`couchstore_free_document` has run: a size-field read strictly after the
release. -/
theorem db_read_reads_size_field_after_free :
    db_read (db_write initialWrapper "k" [5] true) "k" []
      = .ok { ret := 1, dataset := [[5]], docEvents := readDocEvents }
    ∧ readDocEvents.count .freeDoc = 1
    ∧ .readDataSize ∈ (readDocEvents.dropWhile (fun e => e ≠ .freeDoc)).tail := by
  exact ⟨rfl, by decide, by decide⟩

/-- C8 counterexample: the claim says chunk keys are derived from the `uri`,
making the key sets of checkpoints under distinct uris disjoint.  For a
payload of exactly one chunk, checkpoints under `"u1"` and `"u2"` both emit
the single key `"c0"`: the key sets are identical and non-empty, hence not
disjoint. -/
theorem checkpoint_keys_collide_across_uris :
    (db_checkpoint_docs "u1" (List.replicate 8192 0)).map Doc.id = ["c0"]
    ∧ (db_checkpoint_docs "u2" (List.replicate 8192 0)).map Doc.id = ["c0"] := by
  constructor <;>
    · rw [checkpoint_docs_ids, List.length_replicate]
      decide

/-- C8 amended: every chunk emitted by `db_checkpoint` is keyed `"c" ++ i`
by chunk index alone — the `uri` argument is ignored (the uri-qualified key
is commented out in the source) — so two checkpoints of the same data under
any two uris emit identical documents, not disjoint key sets. -/
theorem checkpoint_keys_ignore_uri :
    ∀ (u1 u2 : String) (data : List Nat),
      (db_checkpoint_docs u1 data).map Doc.id
        = (List.range (data.length / 8192)).map (fun i => "c" ++ toString i)
      ∧ db_checkpoint_docs u1 data = db_checkpoint_docs u2 data :=
  fun u1 _ data => ⟨checkpoint_docs_ids u1 data, rfl⟩

/-- C9 counterexample: the claim says every operation after `close()` fails
with a typed `Closed` error.  After `db_close` on the fresh wrapper the C
handles are closed, yet a subsequent `db_write` proceeds normally (the key is
appended and no error is possible in its type), and a subsequent `db_read` of
that key returns a normal successful result. -/
theorem operations_after_close_proceed :
    (db_close initialWrapper).handle.isOpen = false
    ∧ (db_write (db_close initialWrapper) "k" [1] true).dataset_key = ["k"]
    ∧ db_read (db_write (db_close initialWrapper) "k" [1] true) "k" []
        = .ok { ret := 1, dataset := [[1]], docEvents := readDocEvents } := by
  exact ⟨rfl, rfl, rfl⟩

/-- C9 amended: `db_close` closes the underlying node stores but records no
closed state that the wrapper consults: subsequent `db_write` and `db_read`
calls behave exactly as they would on the un-closed wrapper, and no `Closed`
error exists in the code. -/
theorem post_close_no_closed_check :
    ∀ (w : DbWrapper) (uri : String) (data : List Nat) (putOk : Bool)
      (ds : List (List Nat)),
      (db_write (db_close w) uri data putOk).dataset_key
        = (db_write w uri data putOk).dataset_key
      ∧ db_read (db_close w) uri ds = db_read w uri ds :=
  fun _ _ _ _ _ => ⟨rfl, rfl⟩

/-- C10: `db_checkpoint` leaves `dataset_key` unchanged for every wrapper
state, uri and data: chunk keys are never appended to `dataset_key`, so the
reader (`DBReader.read`), which enumerates exactly `dataset_key`, fetches
only keys stored via `db_write`, never checkpoint chunks. -/
theorem db_checkpoint_preserves_dataset_key :
    ∀ (w : DbWrapper) (uri : String) (data : List Nat),
      (db_checkpoint w uri data).dataset_key = w.dataset_key
      ∧ dbReaderKeys (db_checkpoint w uri data) = dbReaderKeys w :=
  fun _ _ _ => ⟨rfl, rfl⟩
